import Mathlib

/-!
Shallow embedding of the Express/Prisma bulletin-board server
(`src/unnamed/part_000`): data model, the `asyncHandler` wrapper, the
per-route handlers, and the Prisma calls they make, together with proofs
about the claims of the specification.

Conventions of the embedding:
* JS promises/exceptions become `Except PrismaError`; a handler either
  returns one response and a (possibly updated) store, or an error that
  `asyncHandler` translates, leaving the store as it was before the
  failing call (each Prisma call is atomic).
* Timestamps are `Nat`; ids generated by the persistence layer are
  supplied as explicit oracle arguments of the operation.
* `Number(...)` and `parseInt(...)` are modelled on absent values, the
  empty string, and digit strings; every other string is NaN (`none`).
  Signs, decimals and exotic numeric forms do not occur in the claims.
-/

/-- A query-string or path parameter: absent (`undefined`) or a string. -/
inductive QueryVal where
  | absent
  | str (s : String)
deriving Repr, DecidableEq

/-- Destructuring default `const { x = d } = req.query`: the default applies
only when the value is absent. -/
def QueryVal.getD : QueryVal → String → String
  | .absent, d => d
  | .str s, _ => s

/-- JS truthiness of a query value (`cursor ? _ : _`): absent and the empty
string are falsy. -/
def QueryVal.truthy : QueryVal → Option String
  | .absent => none
  | .str s => if s == "" then none else some s

/-- Value of a digit list read as a decimal numeral. -/
def digitsToNat (l : List Char) : Nat :=
  l.foldl (fun n c => n * 10 + (c.toNat - 48)) 0

/-- JS `Number(x)` on a string: `""` is 0, digit strings are their value,
anything else is NaN (`none`). -/
def jsNumberStr (s : String) : Option Nat :=
  let cs := s.toList
  if cs.isEmpty then some 0
  else if cs.all Char.isDigit then some (digitsToNat cs) else none

/-- JS `Number(x)` on a query value: `Number(undefined)` is NaN. -/
def jsNumber : QueryVal → Option Nat
  | .absent => none
  | .str s => jsNumberStr s

/-- JS `x || d` for a number `x`: NaN and 0 are falsy and give the default. -/
def jsOr (v : Option Nat) (d : Nat) : Nat :=
  match v with
  | some n => if n == 0 then d else n
  | none => d

/-- JS `parseInt(s)`: the longest leading digit run, NaN (`none`) when there
is none. -/
def parseIntJs (s : String) : Option Nat :=
  let digits := s.toList.takeWhile Char.isDigit
  if digits.isEmpty then none else some (digitsToNat digits)

/-- Boolean test that `needle` starts `hay` (character lists). -/
def prefixOfChars : List Char → List Char → Bool
  | [], _ => true
  | _ :: _, [] => false
  | a :: as, b :: bs => a == b && prefixOfChars as bs

/-- Boolean substring containment on character lists. -/
def containsChars (hay needle : List Char) : Bool :=
  match hay with
  | [] => needle.isEmpty
  | _ :: t => prefixOfChars needle hay || containsChars t needle

/-- Prisma `field: { contains: needle }` with the default (case-sensitive)
mode: substring containment. -/
def strContains (hay needle : String) : Bool :=
  containsChars hay.toList needle.toList

/-- Specification-side notion of substring: `needle` occurs contiguously
inside `hay`. -/
def SubstringOf (needle hay : String) : Prop :=
  ∃ pre post, hay.toList = pre ++ needle.toList ++ post

/-! ## Data model (Prisma records as selected by the routes) -/

structure Article where
  id : String
  title : String
  content : String
  createdAt : Nat
deriving Repr, DecidableEq

structure Product where
  id : Nat
  name : String
  description : String
  price : Int
  tags : List String
  favoriteCount : Int
  createdAt : Nat
deriving Repr, DecidableEq

structure Comment where
  id : String
  content : String
  createdAt : Nat
  articleId : String
deriving Repr, DecidableEq

structure ProductComment where
  id : String
  content : String
  createdAt : Nat
  productId : Nat
deriving Repr, DecidableEq

/-- The `select { id, content, createdAt }` projection used by both
cursor-paginated comment listings. -/
structure CommentSelect where
  id : String
  content : String
  createdAt : Nat
deriving Repr, DecidableEq

def Comment.toSelect (c : Comment) : CommentSelect :=
  ⟨c.id, c.content, c.createdAt⟩

def ProductComment.toSelect (c : ProductComment) : CommentSelect :=
  ⟨c.id, c.content, c.createdAt⟩

/-- The persistent state behind the Prisma client. -/
structure Store where
  articles : List Article
  products : List Product
  comments : List Comment
  productComments : List ProductComment
deriving Repr, DecidableEq

/-! ## Errors, responses and the request wrapper -/

/-- The failure kinds `asyncHandler` distinguishes: a superstruct
`StructError`, a `Prisma.PrismaClientValidationError`, a
`Prisma.PrismaClientKnownRequestError` (carrying its `code`), and anything
else (TypeError, ReferenceError, ...). -/
inductive PrismaError where
  | structError (msg : String)
  | clientValidationError (msg : String)
  | knownRequestError (code : String) (msg : String)
  | otherError (msg : String)
deriving Repr, DecidableEq

def PrismaError.message : PrismaError → String
  | .structError m => m
  | .clientValidationError m => m
  | .knownRequestError _ m => m
  | .otherError m => m

/-- Body of an HTTP response: a success payload, a message record
`res.send { message }`, or empty (`res.sendStatus`). -/
inductive Body (α : Type) where
  | payload (a : α)
  | message (m : String)
  | empty
deriving Repr, DecidableEq

structure HResponse (α : Type) where
  status : Nat
  body : Body α
deriving Repr, DecidableEq

/-- First test of the catch block:
`e.name === "StructError" || e instanceof Prisma.PrismaClientValidationError`. -/
def isStructOrValidation : PrismaError → Bool
  | .structError _ => true
  | .clientValidationError _ => true
  | _ => false

/-- Second test of the catch block:
`e instanceof Prisma.PrismaClientKnownRequestError && e.code === "P2025"`. -/
def isP2025 : PrismaError → Bool
  | .knownRequestError code _ => code == "P2025"
  | _ => false

/-- The response the catch block of `asyncHandler` sends for a failure. -/
def catchResponse {α : Type} (e : PrismaError) : HResponse α :=
  if isStructOrValidation e then ⟨400, .message e.message⟩
  else if isP2025 e then ⟨404, .empty⟩
  else ⟨500, .message e.message⟩

/-- The request wrapper `asyncHandler`, viewed on the outcome of the wrapped
handler: a successful handler's response passes through, a failure is
translated by the catch block. By construction exactly one response comes
out of a failed request. -/
def asyncHandler {α : Type} : Except PrismaError (HResponse α) → HResponse α
  | .ok r => r
  | .error e => catchResponse e

/-- A full endpoint: the wrapped handler also threads the store. A Prisma
call that fails leaves the store unchanged. -/
def runEndpoint {α : Type} (s : Store) :
    Except PrismaError (HResponse α × Store) → HResponse α × Store
  | .ok (r, s2) => (r, s2)
  | .error e => (catchResponse e, s)

example : asyncHandler (α := Nat) (.error (.knownRequestError "P2025" "x")) = ⟨404, .empty⟩ := by
  decide

example : strContains "hello world" "lo w" = true := by decide

example : strContains "Hello" "h" = false := by decide

/-! ## Request bodies and the superstruct shapes

The request body of a create/update call, as parsed from JSON: the fields
the resource knows about, plus the list of any other keys the client sent.
-/

structure ArticleBody where
  title : Option String
  content : Option String
  extraKeys : List String
deriving Repr, DecidableEq

structure CommentBody where
  content : Option String
  extraKeys : List String
deriving Repr, DecidableEq

structure ProductBody where
  name : Option String
  description : Option String
  price : Option Int
  tags : Option (List String)
  favoriteCount : Option Int
  id : Option Nat
  createdAt : Option Nat
  extraKeys : List String
deriving Repr, DecidableEq

/-- Modelled from the spec: `structs.js` is not among the source files. Per
§4.2 the `CreateArticle` shape requires `title` and `content`; a superstruct
object shape also rejects keys outside the shape. A failing body raises a
`StructError`. -/
def assertCreateArticle (b : ArticleBody) : Except PrismaError Unit :=
  if b.title.isSome && b.content.isSome && b.extraKeys.isEmpty then .ok ()
  else .error (.structError "CreateArticle: body does not match the expected shape")

/-- Modelled from the spec: `structs.js` is not among the source files. Per
§4.2 the `PatchArticle` shape allows a subset of `title` and `content`;
other keys are rejected. -/
def assertPatchArticle (b : ArticleBody) : Except PrismaError Unit :=
  if b.extraKeys.isEmpty then .ok ()
  else .error (.structError "PatchArticle: body does not match the expected shape")

/-- Modelled from the spec: `structs.js` is not among the source files. Per
§4.2 the `CreateComment` shape requires `content`; other keys are rejected. -/
def assertCreateComment (b : CommentBody) : Except PrismaError Unit :=
  if b.content.isSome && b.extraKeys.isEmpty then .ok ()
  else .error (.structError "CreateComment: body does not match the expected shape")

/-! ## Prisma operations

Each operation validates its arguments the way the Prisma client does
(malformed arguments raise `PrismaClientValidationError` before any query
runs), then acts on the store. Failures leave the store unchanged.
-/

/-- A JS value handed to Prisma as a foreign-key argument. -/
inductive JsVal where
  | undef
  | jstr (s : String)
  | jnum (n : Nat)
deriving Repr, DecidableEq

def findArticleById (s : Store) (i : String) : Option Article :=
  s.articles.find? (fun a => a.id == i)

def findProductById (s : Store) (i : Nat) : Option Product :=
  s.products.find? (fun p => p.id == i)

def findCommentById (s : Store) (i : String) : Option Comment :=
  s.comments.find? (fun c => c.id == i)

def findProductCommentById (s : Store) (i : String) : Option ProductComment :=
  s.productComments.find? (fun c => c.id == i)

/-- `prisma.article.create({ data })` on a `CreateArticle`-shaped body; the
persistence layer supplies the fresh id and timestamp. -/
def articleCreate (s : Store) (data : ArticleBody) (newId : String) (now : Nat) :
    Except PrismaError (Article × Store) :=
  if !data.extraKeys.isEmpty then
    .error (.clientValidationError "Unknown argument in data.")
  else
    match data.title, data.content with
    | some t, some c =>
        if s.articles.any (fun a => a.id == newId) then
          .error (.knownRequestError "P2002" "Unique constraint failed on id.")
        else
          let a : Article := ⟨newId, t, c, now⟩
          .ok (a, { s with articles := s.articles ++ [a] })
    | _, _ => .error (.clientValidationError "Argument is missing in data.")

/-- `prisma.article.findUniqueOrThrow({ where: { id } })`: the not-found
failure carries Prisma code P2025. -/
def articleFindUniqueOrThrow (s : Store) (id : String) : Except PrismaError Article :=
  match findArticleById s id with
  | some a => .ok a
  | none => .error (.knownRequestError "P2025" "No Article found.")

/-- `prisma.article.update({ where: { id }, data })`: fields present in
`data` replace the stored ones; a missing record is Prisma code P2025. -/
def articleUpdate (s : Store) (id : String) (data : ArticleBody) :
    Except PrismaError (Article × Store) :=
  if !data.extraKeys.isEmpty then
    .error (.clientValidationError "Unknown argument in data.")
  else
    match findArticleById s id with
    | none => .error (.knownRequestError "P2025" "Record to update not found.")
    | some a =>
        let a2 : Article :=
          { a with title := data.title.getD a.title, content := data.content.getD a.content }
        .ok (a2, { s with articles := s.articles.map (fun x => if x.id == id then a2 else x) })

/-- `prisma.article.delete({ where: { id } })`: a missing record is Prisma
code P2025. -/
def articleDelete (s : Store) (id : String) : Except PrismaError (Article × Store) :=
  match findArticleById s id with
  | none => .error (.knownRequestError "P2025" "Record to delete does not exist.")
  | some a => .ok (a, { s with articles := s.articles.filter (fun x => !(x.id == id)) })

/-- `prisma.comment.create` with the spread body plus the `articleId`
foreign key. The schema (modelled from the spec, §3) makes `articleId` a
required string foreign key to an existing Article. -/
def commentCreate (s : Store) (body : CommentBody) (articleId : JsVal)
    (newId : String) (now : Nat) : Except PrismaError (Comment × Store) :=
  if !body.extraKeys.isEmpty then
    .error (.clientValidationError "Unknown argument in data.")
  else
    match body.content, articleId with
    | none, _ => .error (.clientValidationError "Argument content is missing.")
    | some _, .undef => .error (.clientValidationError "Argument articleId is missing.")
    | some _, .jnum _ =>
        .error (.clientValidationError "Argument articleId: Invalid value provided.")
    | some c, .jstr aid =>
        if s.articles.any (fun a => a.id == aid) then
          if s.comments.any (fun x => x.id == newId) then
            .error (.knownRequestError "P2002" "Unique constraint failed on id.")
          else
            let cm : Comment := ⟨newId, c, now, aid⟩
            .ok (cm, { s with comments := s.comments ++ [cm] })
        else .error (.knownRequestError "P2003" "Foreign key constraint failed.")

/-- `prisma.comment.update({ where: { id }, data })` on a
`CreateComment`-shaped body. -/
def commentUpdate (s : Store) (id : String) (data : CommentBody) :
    Except PrismaError (Comment × Store) :=
  if !data.extraKeys.isEmpty then
    .error (.clientValidationError "Unknown argument in data.")
  else
    match findCommentById s id with
    | none => .error (.knownRequestError "P2025" "Record to update not found.")
    | some c =>
        let c2 : Comment := { c with content := data.content.getD c.content }
        .ok (c2, { s with comments := s.comments.map (fun x => if x.id == id then c2 else x) })

/-- `prisma.comment.delete({ where: { id } })`. -/
def commentDelete (s : Store) (id : String) : Except PrismaError (Comment × Store) :=
  match findCommentById s id with
  | none => .error (.knownRequestError "P2025" "Record to delete does not exist.")
  | some c => .ok (c, { s with comments := s.comments.filter (fun x => !(x.id == id)) })

/-- `prisma.productComment.create` with the spread body plus the
`productId` foreign key. The schema (modelled from the spec, §3: Product
ids are numeric) makes `productId` a required numeric foreign key, so a
string value fails Prisma's argument validation. -/
def productCommentCreate (s : Store) (body : CommentBody) (productId : JsVal)
    (newId : String) (now : Nat) : Except PrismaError (ProductComment × Store) :=
  if !body.extraKeys.isEmpty then
    .error (.clientValidationError "Unknown argument in data.")
  else
    match body.content, productId with
    | none, _ => .error (.clientValidationError "Argument content is missing.")
    | some _, .undef => .error (.clientValidationError "Argument productId is missing.")
    | some _, .jstr _ =>
        .error (.clientValidationError
          "Argument productId: Invalid value provided. Expected Int, provided String.")
    | some c, .jnum pid =>
        if s.products.any (fun p => p.id == pid) then
          if s.productComments.any (fun x => x.id == newId) then
            .error (.knownRequestError "P2002" "Unique constraint failed on id.")
          else
            let cm : ProductComment := ⟨newId, c, now, pid⟩
            .ok (cm, { s with productComments := s.productComments ++ [cm] })
        else .error (.knownRequestError "P2003" "Foreign key constraint failed.")

/-- `prisma.product.create({ data: req.body })`: the body is not validated
by a struct, so any known Product field may appear; unknown keys fail
Prisma's argument validation, missing required fields (name, description,
price) likewise. The id and createdAt default to the persistence-layer
values when the body does not supply them. -/
def productCreate (s : Store) (data : ProductBody) (newId : Nat) (now : Nat) :
    Except PrismaError (Product × Store) :=
  if !data.extraKeys.isEmpty then
    .error (.clientValidationError "Unknown argument in data.")
  else
    match data.name, data.description, data.price with
    | some n, some d, some pr =>
        if s.products.any (fun p => p.id == data.id.getD newId) then
          .error (.knownRequestError "P2002" "Unique constraint failed on id.")
        else
          let p : Product :=
            ⟨data.id.getD newId, n, d, pr, data.tags.getD [], data.favoriteCount.getD 0,
              data.createdAt.getD now⟩
          .ok (p, { s with products := s.products ++ [p] })
    | _, _, _ => .error (.clientValidationError "Argument is missing in data.")

/-- `prisma.product.findUnique({ where: { id: n } })` with a well-formed
filter: an `Option`, no throw on a missing record. The argument is the
result of `Number(req.params.id)`; NaN is not a valid Int and fails
Prisma's argument validation. -/
def productFindUniqueWhere (s : Store) (n : Option Nat) : Except PrismaError (Option Product) :=
  match n with
  | none => .error (.clientValidationError "Argument id: Invalid value provided.")
  | some v => .ok (findProductById s v)

/-- `prisma.product.findUnique(id)` with a bare id instead of a `where`
object: the Prisma client rejects the malformed argument before any query
runs. -/
def productFindUniqueBare (_s : Store) (_rawId : String) : Except PrismaError (Option Product) :=
  .error (.clientValidationError "Argument where is missing.")

/-- `prisma.product.delete(id)` with a bare numeric id instead of a
`where` object: rejected the same way. -/
def productDeleteBare (_s : Store) (_rawId : Option Nat) : Except PrismaError (Option Product) :=
  .error (.clientValidationError "Argument where is missing.")

/-! ## Listing machinery: order keywords, keyword filters, windows -/

/-- The `orderBy` value built by the GET /products switch. -/
inductive ProductOrder where
  | createdAtDesc
  | favoriteCountDesc
deriving Repr, DecidableEq

/-- The GET /products order switch: the case label in the source is spelled
`"fovorite"`; `"recent"` falls through to the default. -/
def productOrderBy (order : String) : ProductOrder :=
  match order with
  | "fovorite" => .favoriteCountDesc
  | _ => .createdAtDesc

/-- The `orderBy` value built by the GET /article switch. -/
inductive ArticleOrder where
  | createdAtDesc
  | createdAtAsc
deriving Repr, DecidableEq

/-- The GET /article order switch: `"oldest"` sorts ascending, everything
else (including `"recent"`) descending. -/
def articleOrderBy (order : String) : ArticleOrder :=
  match order with
  | "oldest" => .createdAtAsc
  | _ => .createdAtDesc

/-- Comparison the store uses for a product `orderBy` value. -/
def productOrderRel : ProductOrder → Product → Product → Prop
  | .createdAtDesc => fun a b => b.createdAt ≤ a.createdAt
  | .favoriteCountDesc => fun a b => b.favoriteCount ≤ a.favoriteCount

/-- Comparison the store uses for an article `orderBy` value. -/
def articleOrderRel : ArticleOrder → Article → Article → Prop
  | .createdAtDesc => fun a b => b.createdAt ≤ a.createdAt
  | .createdAtAsc => fun a b => a.createdAt ≤ b.createdAt

/-- Newest-first comparison for the cursor-paginated comment listings. -/
def commentNewestFirst (a b : Comment) : Prop := b.createdAt ≤ a.createdAt

def productCommentNewestFirst (a b : ProductComment) : Prop := b.createdAt ≤ a.createdAt

instance (o : ProductOrder) : DecidableRel (productOrderRel o) := fun a b => by
  cases o <;> dsimp [productOrderRel] <;> infer_instance

instance (o : ArticleOrder) : DecidableRel (articleOrderRel o) := fun a b => by
  cases o <;> dsimp [articleOrderRel] <;> infer_instance

instance : DecidableRel commentNewestFirst := fun a b => by
  dsimp [commentNewestFirst]; infer_instance

instance : DecidableRel productCommentNewestFirst := fun a b => by
  dsimp [productCommentNewestFirst]; infer_instance

instance (o : ProductOrder) : IsTotal Product (productOrderRel o) :=
  ⟨by cases o <;> intro a b <;> dsimp [productOrderRel] <;> exact le_total _ _⟩

instance (o : ProductOrder) : IsTrans Product (productOrderRel o) :=
  ⟨by cases o <;> intro a b c h1 h2 <;> dsimp [productOrderRel] at * <;> exact le_trans h2 h1⟩

instance (o : ArticleOrder) : IsTotal Article (articleOrderRel o) :=
  ⟨by cases o <;> intro a b <;> dsimp [articleOrderRel] <;> exact le_total _ _⟩

instance (o : ArticleOrder) : IsTrans Article (articleOrderRel o) :=
  ⟨by cases o <;> intro a b c h1 h2 <;> dsimp [articleOrderRel] at * <;> omega⟩

instance : IsTotal Comment commentNewestFirst :=
  ⟨by intro a b; dsimp [commentNewestFirst]; exact le_total _ _⟩

instance : IsTrans Comment commentNewestFirst :=
  ⟨by intro a b c h1 h2; dsimp [commentNewestFirst] at *; omega⟩

instance : IsTotal ProductComment productCommentNewestFirst :=
  ⟨by intro a b; dsimp [productCommentNewestFirst]; exact le_total _ _⟩

instance : IsTrans ProductComment productCommentNewestFirst :=
  ⟨by intro a b c h1 h2; dsimp [productCommentNewestFirst] at *; omega⟩

/-- The GET /products `searchQuery`: keyword containment on name OR
description (unconditionally, also for the empty keyword). -/
def productMatches (keyword : String) (p : Product) : Bool :=
  strContains p.name keyword || strContains p.description keyword

/-- The GET /article `searchQuery`: the empty (falsy) keyword yields the
trivial filter, otherwise containment on content OR title. -/
def articleMatches (keyword : String) (a : Article) : Bool :=
  if keyword == "" then true
  else strContains a.content keyword || strContains a.title keyword

/-- The filtered, sorted sequence GET /products pages over. -/
def filteredSortedProducts (s : Store) (keyword : String) (o : ProductOrder) : List Product :=
  (s.products.filter (productMatches keyword)).insertionSort (productOrderRel o)

/-- The filtered, sorted sequence GET /article pages over. -/
def filteredSortedArticles (s : Store) (keyword : String) (o : ArticleOrder) : List Article :=
  (s.articles.filter (articleMatches keyword)).insertionSort (articleOrderRel o)

/-- `prisma.product.findMany({ where, orderBy, skip, take, select })`: the
select lists every Product field, so records pass through whole. -/
def productFindMany (s : Store) (keyword : String) (o : ProductOrder)
    (skip take : Nat) : List Product :=
  ((filteredSortedProducts s keyword o).drop skip).take take

/-- `prisma.product.count({ where })`. -/
def productCount (s : Store) (keyword : String) : Nat :=
  (s.products.filter (productMatches keyword)).length

/-- `prisma.article.findMany({ where, orderBy, skip, take })`. -/
def articleFindMany (s : Store) (keyword : String) (o : ArticleOrder)
    (skip take : Nat) : List Article :=
  ((filteredSortedArticles s keyword o).drop skip).take take

/-- Cursor-mode `prisma.comment.findMany`: `take` must be an integer (NaN
fails argument validation); with a cursor the store positions at the first
record carrying the cursor id in the sorted order, then applies skip and
take; without one it pages from the start. -/
def commentFindManyCursor (s : Store) (take : Option Nat) (skip : Nat)
    (cursor : Option String) : Except PrismaError (List CommentSelect) :=
  match take with
  | none => .error (.clientValidationError "Argument take: Invalid value provided.")
  | some t =>
      let sorted := s.comments.insertionSort commentNewestFirst
      let window :=
        match cursor with
        | none => (sorted.drop skip).take t
        | some c => (((sorted.dropWhile (fun (r : Comment) => !(r.id == c))).drop skip).take t)
      .ok (window.map Comment.toSelect)

/-- Cursor-mode `prisma.productComment.findMany`. -/
def productCommentFindManyCursor (s : Store) (take : Option Nat) (skip : Nat)
    (cursor : Option String) : Except PrismaError (List CommentSelect) :=
  match take with
  | none => .error (.clientValidationError "Argument take: Invalid value provided.")
  | some t =>
      let sorted := s.productComments.insertionSort productCommentNewestFirst
      let window :=
        match cursor with
        | none => (sorted.drop skip).take t
        | some c => (((sorted.dropWhile (fun (r : ProductComment) => !(r.id == c))).drop skip).take t)
      .ok (window.map ProductComment.toSelect)

/-! ## Route handlers (the functions passed to `asyncHandler`) and the
wrapped endpoints -/

/-- POST /article. -/
def postArticleHandler (s : Store) (body : ArticleBody) (newId : String) (now : Nat) :
    Except PrismaError (HResponse Article × Store) :=
  match assertCreateArticle body with
  | .error e => .error e
  | .ok _ =>
      match articleCreate s body newId now with
      | .error e => .error e
      | .ok (article, s2) => .ok (⟨201, .payload article⟩, s2)

def postArticle (s : Store) (body : ArticleBody) (newId : String) (now : Nat) :
    HResponse Article × Store :=
  runEndpoint s (postArticleHandler s body newId now)

/-- GET /article/:id (the select lists every Article field). -/
def getArticleByIdHandler (s : Store) (id : String) :
    Except PrismaError (HResponse Article × Store) :=
  match articleFindUniqueOrThrow s id with
  | .error e => .error e
  | .ok article => .ok (⟨200, .payload article⟩, s)

def getArticleById (s : Store) (id : String) : HResponse Article × Store :=
  runEndpoint s (getArticleByIdHandler s id)

/-- PATCH /article/:id. -/
def patchArticleHandler (s : Store) (id : String) (body : ArticleBody) :
    Except PrismaError (HResponse Article × Store) :=
  match assertPatchArticle body with
  | .error e => .error e
  | .ok _ =>
      match articleUpdate s id body with
      | .error e => .error e
      | .ok (article, s2) => .ok (⟨200, .payload article⟩, s2)

def patchArticle (s : Store) (id : String) (body : ArticleBody) :
    HResponse Article × Store :=
  runEndpoint s (patchArticleHandler s id body)

/-- DELETE /article/:id. -/
def deleteArticleHandler (s : Store) (id : String) :
    Except PrismaError (HResponse Article × Store) :=
  match articleDelete s id with
  | .error e => .error e
  | .ok (_, s2) => .ok (⟨204, .empty⟩, s2)

def deleteArticle (s : Store) (id : String) : HResponse Article × Store :=
  runEndpoint s (deleteArticleHandler s id)

/-- Response shape of GET /products. -/
structure ProductListResult where
  totalCount : Nat
  products : List Product
deriving Repr, DecidableEq

/-- GET /products. -/
def getProductsHandler (s : Store) (page pageSize order keyword : QueryVal) :
    Except PrismaError (HResponse ProductListResult × Store) :=
  let orderS := order.getD "recent"
  let keywordS := keyword.getD ""
  let ordered := productOrderBy orderS
  let pageNum := jsOr (jsNumber page) 1
  let pageSizeNum := jsOr (jsNumber pageSize) 10
  let skipInt := (pageNum - 1) * pageSizeNum
  let products := productFindMany s keywordS ordered skipInt pageSizeNum
  let totalCount := productCount s keywordS
  .ok (⟨200, .payload ⟨totalCount, products⟩⟩, s)

def getProducts (s : Store) (page pageSize order keyword : QueryVal) :
    HResponse ProductListResult × Store :=
  runEndpoint s (getProductsHandler s page pageSize order keyword)

/-- POST /article/:id/comment. The route declares the path parameter as
`:id`, but the handler destructures `articleId` from `req.params`, which is
therefore `undefined`; the path id is never read. -/
def postArticleCommentHandler (s : Store) (_pathId : String) (body : CommentBody)
    (newId : String) (now : Nat) : Except PrismaError (HResponse Comment × Store) :=
  match assertCreateComment body with
  | .error e => .error e
  | .ok _ =>
      let articleIdParam : JsVal := .undef
      match commentCreate s body articleIdParam newId now with
      | .error e => .error e
      | .ok (comment, s2) => .ok (⟨201, .payload comment⟩, s2)

def postArticleComment (s : Store) (pathId : String) (body : CommentBody)
    (newId : String) (now : Nat) : HResponse Comment × Store :=
  runEndpoint s (postArticleCommentHandler s pathId body newId now)

/-- POST /product/:id/comment: no struct assertion; the string path id is
spread into the data as the `productId` foreign key. -/
def postProductCommentHandler (s : Store) (pathId : String) (body : CommentBody)
    (newId : String) (now : Nat) : Except PrismaError (HResponse ProductComment × Store) :=
  match productCommentCreate s body (.jstr pathId) newId now with
  | .error e => .error e
  | .ok (comment, s2) => .ok (⟨201, .payload comment⟩, s2)

def postProductComment (s : Store) (pathId : String) (body : CommentBody)
    (newId : String) (now : Nat) : HResponse ProductComment × Store :=
  runEndpoint s (postProductCommentHandler s pathId body newId now)

/-- PATCH /comment/:id (the body is asserted against CreateComment). -/
def patchCommentHandler (s : Store) (id : String) (body : CommentBody) :
    Except PrismaError (HResponse Comment × Store) :=
  match assertCreateComment body with
  | .error e => .error e
  | .ok _ =>
      match commentUpdate s id body with
      | .error e => .error e
      | .ok (comment, s2) => .ok (⟨200, .payload comment⟩, s2)

def patchComment (s : Store) (id : String) (body : CommentBody) :
    HResponse Comment × Store :=
  runEndpoint s (patchCommentHandler s id body)

/-- DELETE /comment/:id. -/
def deleteCommentHandler (s : Store) (id : String) :
    Except PrismaError (HResponse Comment × Store) :=
  match commentDelete s id with
  | .error e => .error e
  | .ok (_, s2) => .ok (⟨204, .empty⟩, s2)

def deleteComment (s : Store) (id : String) : HResponse Comment × Store :=
  runEndpoint s (deleteCommentHandler s id)

/-- GET /comment: cursor-paginated listing. -/
def getCommentsHandler (s : Store) (cursor limit : QueryVal) :
    Except PrismaError (HResponse (List CommentSelect) × Store) :=
  let parsedLimit : Option Nat :=
    match limit with
    | .absent => some 5
    | .str v => parseIntJs v
  let cursorVal := cursor.truthy
  let skipVal := if cursorVal.isSome then 1 else 0
  match commentFindManyCursor s parsedLimit skipVal cursorVal with
  | .error e => .error e
  | .ok comments => .ok (⟨200, .payload comments⟩, s)

def getComments (s : Store) (cursor limit : QueryVal) :
    HResponse (List CommentSelect) × Store :=
  runEndpoint s (getCommentsHandler s cursor limit)

/-- GET /productcomment: computes the window like GET /comment, but then
executes `res.send(productComment)`; the identifier `productComment` is not
defined anywhere in the module, so evaluating it raises a ReferenceError
instead of sending the computed `comments`. -/
def getProductCommentsHandler (s : Store) (cursor limit : QueryVal) :
    Except PrismaError (HResponse (List CommentSelect) × Store) :=
  let parsedLimit : Option Nat :=
    match limit with
    | .absent => some 5
    | .str v => parseIntJs v
  let cursorVal := cursor.truthy
  let skipVal := if cursorVal.isSome then 1 else 0
  match productCommentFindManyCursor s parsedLimit skipVal cursorVal with
  | .error e => .error e
  | .ok _comments => .error (.otherError "productComment is not defined")

def getProductComments (s : Store) (cursor limit : QueryVal) :
    HResponse (List CommentSelect) × Store :=
  runEndpoint s (getProductCommentsHandler s cursor limit)

/-- GET /article: page-paginated listing. -/
def getArticlesHandler (s : Store) (page pageSize order keyword : QueryVal) :
    Except PrismaError (HResponse (List Article) × Store) :=
  let orderS := order.getD "recent"
  let keywordS := keyword.getD ""
  let ordered := articleOrderBy orderS
  let pageNum := jsOr (jsNumber page) 1
  let pageSizeNum := jsOr (jsNumber pageSize) 10
  let skipInt := (pageNum - 1) * pageSizeNum
  let articles := articleFindMany s keywordS ordered skipInt pageSizeNum
  .ok (⟨200, .payload articles⟩, s)

def getArticles (s : Store) (page pageSize order keyword : QueryVal) :
    HResponse (List Article) × Store :=
  runEndpoint s (getArticlesHandler s page pageSize order keyword)

/-- GET /products/:id: a well-formed `where: { id: Number(id) }` filter and
an explicit 404 branch that sends a message body. -/
def getProductByIdHandler (s : Store) (rawId : String) :
    Except PrismaError (HResponse Product × Store) :=
  match productFindUniqueWhere s (jsNumberStr rawId) with
  | .error e => .error e
  | .ok (some product) => .ok (⟨200, .payload product⟩, s)
  | .ok none => .ok (⟨404, .message "Cannot find given id."⟩, s)

def getProductById (s : Store) (rawId : String) : HResponse Product × Store :=
  runEndpoint s (getProductByIdHandler s rawId)

/-- POST /products (no struct assertion on the body). -/
def postProductHandler (s : Store) (body : ProductBody) (newId : Nat) (now : Nat) :
    Except PrismaError (HResponse Product × Store) :=
  match productCreate s body newId now with
  | .error e => .error e
  | .ok (product, s2) => .ok (⟨201, .payload product⟩, s2)

def postProduct (s : Store) (body : ProductBody) (newId : Nat) (now : Nat) :
    HResponse Product × Store :=
  runEndpoint s (postProductHandler s body newId now)

/-- The key-copy merge of PATCH /products/:id: every body key is assigned
onto the fetched product object, `id` and `createdAt` included. -/
def mergeBodyOntoProduct (p : Product) (body : ProductBody) : Product :=
  { p with
    name := body.name.getD p.name
    description := body.description.getD p.description
    price := body.price.getD p.price
    tags := body.tags.getD p.tags
    favoriteCount := body.favoriteCount.getD p.favoriteCount
    id := body.id.getD p.id
    createdAt := body.createdAt.getD p.createdAt }

/-- PATCH /products/:id: fetches with a bare id, which the Prisma client
rejects; were a product returned, the handler would run the key-copy merge
and then call `product.save()`, which does not exist on a Prisma result
object, raising a TypeError before anything is persisted. -/
def patchProductHandler (s : Store) (rawId : String) (body : ProductBody) :
    Except PrismaError (HResponse Product × Store) :=
  match productFindUniqueBare s rawId with
  | .error e => .error e
  | .ok none => .ok (⟨404, .message "Cannot find given id. "⟩, s)
  | .ok (some product) =>
      let _merged := mergeBodyOntoProduct product body
      .error (.otherError "product.save is not a function")

def patchProduct (s : Store) (rawId : String) (body : ProductBody) :
    HResponse Product × Store :=
  runEndpoint s (patchProductHandler s rawId body)

/-- DELETE /products/:id: `prisma.product.delete(Number(req.params.id))`
passes a bare numeric id, which the Prisma client rejects; the two response
branches are unreachable. -/
def deleteProductHandler (s : Store) (rawId : String) :
    Except PrismaError (HResponse Product × Store) :=
  match productDeleteBare s (jsNumberStr rawId) with
  | .error e => .error e
  | .ok none => .ok (⟨404, .message "Cannot find given id. "⟩, s)
  | .ok (some _) => .ok (⟨204, .empty⟩, s)

def deleteProduct (s : Store) (rawId : String) : HResponse Product × Store :=
  runEndpoint s (deleteProductHandler s rawId)

/-! ## The system's operations as one step relation -/

/-- One inbound request to any of the registered routes, with the oracle
values (fresh id, current time) the persistence layer would supply. -/
inductive Op where
  | opPostArticle (body : ArticleBody) (newId : String) (now : Nat)
  | opGetArticleById (id : String)
  | opPatchArticle (id : String) (body : ArticleBody)
  | opDeleteArticle (id : String)
  | opGetProducts (page pageSize order keyword : QueryVal)
  | opPostArticleComment (pathId : String) (body : CommentBody) (newId : String) (now : Nat)
  | opPostProductComment (pathId : String) (body : CommentBody) (newId : String) (now : Nat)
  | opPatchComment (id : String) (body : CommentBody)
  | opDeleteComment (id : String)
  | opGetComments (cursor limit : QueryVal)
  | opGetProductComments (cursor limit : QueryVal)
  | opGetArticles (page pageSize order keyword : QueryVal)
  | opGetProductById (rawId : String)
  | opPostProduct (body : ProductBody) (newId : Nat) (now : Nat)
  | opPatchProduct (rawId : String) (body : ProductBody)
  | opDeleteProduct (rawId : String)

/-- The store after one request has been fully handled. -/
def step (s : Store) : Op → Store
  | .opPostArticle b i n => (postArticle s b i n).2
  | .opGetArticleById i => (getArticleById s i).2
  | .opPatchArticle i b => (patchArticle s i b).2
  | .opDeleteArticle i => (deleteArticle s i).2
  | .opGetProducts p ps o k => (getProducts s p ps o k).2
  | .opPostArticleComment p b i n => (postArticleComment s p b i n).2
  | .opPostProductComment p b i n => (postProductComment s p b i n).2
  | .opPatchComment i b => (patchComment s i b).2
  | .opDeleteComment i => (deleteComment s i).2
  | .opGetComments c l => (getComments s c l).2
  | .opGetProductComments c l => (getProductComments s c l).2
  | .opGetArticles p ps o k => (getArticles s p ps o k).2
  | .opGetProductById i => (getProductById s i).2
  | .opPostProduct b i n => (postProduct s b i n).2
  | .opPatchProduct i b => (patchProduct s i b).2
  | .opDeleteProduct i => (deleteProduct s i).2

/-! ## Claims -/

/-- C1: through the request wrapper, a schema-validation failure
(StructError) or a persistence-layer validation failure maps to status 400
carrying the failure's message; a known request error with code P2025 maps
to status 404 with an empty body; any other failure (another known request
error code, or an unclassified error) maps to status 500 with the
failure's message; a successful handler's response passes through
untouched. `asyncHandler` is a function into single responses, so exactly
one (error) response arises per failed request. -/
theorem C1_wrapper_error_mapping {α : Type} (m code : String) (r : HResponse α) :
    asyncHandler (α := α) (.error (.structError m)) = ⟨400, .message m⟩ ∧
    asyncHandler (α := α) (.error (.clientValidationError m)) = ⟨400, .message m⟩ ∧
    asyncHandler (α := α) (.error (.knownRequestError "P2025" m)) = ⟨404, .empty⟩ ∧
    (code ≠ "P2025" →
      asyncHandler (α := α) (.error (.knownRequestError code m)) = ⟨500, .message m⟩) ∧
    asyncHandler (α := α) (.error (.otherError m)) = ⟨500, .message m⟩ ∧
    asyncHandler (.ok r) = r := by
  refine ⟨rfl, rfl, rfl, fun h => ?_, rfl, rfl⟩
  simp [asyncHandler, catchResponse, isStructOrValidation, isP2025, PrismaError.message, h]

def emptyStore : Store := ⟨[], [], [], []⟩

/-- C2 counterexample: on a store with no products, GET /products/1
answers 404 but with a message body, not the empty body the claim
promises for every resource. -/
theorem C2_counterexample_product_404_body :
    (getProductById emptyStore "1").1.status = 404 ∧
    (getProductById emptyStore "1").1.body ≠ Body.empty := by
  decide

/-- C2 (amended): for an id that does not identify an existing record,
get-one, update and delete on articles and comments answer 404 with an
empty body (via the wrapper's P2025 branch; for the updates, provided the
body passes its schema assertion). Product get-one answers 404 with a
message body; product update and delete pass a bare id to the store, whose
argument validation rejects every such request with status 400 and leaves
the store unchanged. -/
theorem C2_not_found_behavior (s : Store) (aid cid rawId : String) (n : Nat)
    (abody : ArticleBody) (cbody : CommentBody) (pbody : ProductBody)
    (ha : findArticleById s aid = none)
    (hc : findCommentById s cid = none)
    (habody : assertPatchArticle abody = .ok ())
    (hcbody : assertCreateComment cbody = .ok ())
    (hn : jsNumberStr rawId = some n)
    (hp : findProductById s n = none) :
    getArticleById s aid = (⟨404, .empty⟩, s) ∧
    patchArticle s aid abody = (⟨404, .empty⟩, s) ∧
    deleteArticle s aid = (⟨404, .empty⟩, s) ∧
    patchComment s cid cbody = (⟨404, .empty⟩, s) ∧
    deleteComment s cid = (⟨404, .empty⟩, s) ∧
    getProductById s rawId = (⟨404, .message "Cannot find given id."⟩, s) ∧
    patchProduct s rawId pbody = (⟨400, .message "Argument where is missing."⟩, s) ∧
    deleteProduct s rawId = (⟨400, .message "Argument where is missing."⟩, s) := by
  have hek : abody.extraKeys.isEmpty = true := by
    revert habody; unfold assertPatchArticle; split <;> simp_all
  have hck : cbody.extraKeys.isEmpty = true := by
    revert hcbody; unfold assertCreateComment; split <;> simp_all
  refine ⟨?_, ?_, ?_, ?_, ?_, ?_, ?_, ?_⟩
  · simp [getArticleById, getArticleByIdHandler, articleFindUniqueOrThrow, ha,
      runEndpoint, catchResponse, isStructOrValidation, isP2025]
  · simp [patchArticle, patchArticleHandler, habody, articleUpdate, hek, ha,
      runEndpoint, catchResponse, isStructOrValidation, isP2025]
  · simp [deleteArticle, deleteArticleHandler, articleDelete, ha,
      runEndpoint, catchResponse, isStructOrValidation, isP2025]
  · simp [patchComment, patchCommentHandler, hcbody, commentUpdate, hck, hc,
      runEndpoint, catchResponse, isStructOrValidation, isP2025]
  · simp [deleteComment, deleteCommentHandler, commentDelete, hc,
      runEndpoint, catchResponse, isStructOrValidation, isP2025]
  · simp [getProductById, getProductByIdHandler, productFindUniqueWhere, hn, hp,
      runEndpoint]
  · simp [patchProduct, patchProductHandler, productFindUniqueBare,
      runEndpoint, catchResponse, isStructOrValidation, PrismaError.message]
  · simp [deleteProduct, deleteProductHandler, productDeleteBare,
      runEndpoint, catchResponse, isStructOrValidation, PrismaError.message]

/-- C2 witness: the amended behavior at a concrete store and inputs. -/
theorem C2_not_found_behavior_witness :
    getArticleById emptyStore "a" = (⟨404, .empty⟩, emptyStore) ∧
    patchArticle emptyStore "a" ⟨none, none, []⟩ = (⟨404, .empty⟩, emptyStore) ∧
    deleteArticle emptyStore "a" = (⟨404, .empty⟩, emptyStore) ∧
    patchComment emptyStore "c" ⟨some "x", []⟩ = (⟨404, .empty⟩, emptyStore) ∧
    deleteComment emptyStore "c" = (⟨404, .empty⟩, emptyStore) ∧
    getProductById emptyStore "1" = (⟨404, .message "Cannot find given id."⟩, emptyStore) ∧
    patchProduct emptyStore "1" ⟨none, none, none, none, none, none, none, []⟩ =
      (⟨400, .message "Argument where is missing."⟩, emptyStore) ∧
    deleteProduct emptyStore "1" = (⟨400, .message "Argument where is missing."⟩, emptyStore) :=
  C2_not_found_behavior emptyStore "a" "c" "1" 1 ⟨none, none, []⟩ ⟨some "x", []⟩
    ⟨none, none, none, none, none, none, none, []⟩ rfl rfl rfl rfl (by decide) rfl

/-- The product list carried by a GET /products response. -/
def listedProducts (s : Store) (page pageSize order keyword : QueryVal) : List Product :=
  match (getProducts s page pageSize order keyword).1.body with
  | .payload r => r.products
  | _ => []

/-- The article list carried by a GET /article response. -/
def listedArticles (s : Store) (page pageSize order keyword : QueryVal) : List Article :=
  match (getArticles s page pageSize order keyword).1.body with
  | .payload l => l
  | _ => []

theorem listedProducts_eq (s : Store) (page pageSize order keyword : QueryVal) :
    listedProducts s page pageSize order keyword =
      productFindMany s (keyword.getD "") (productOrderBy (order.getD "recent"))
        ((jsOr (jsNumber page) 1 - 1) * jsOr (jsNumber pageSize) 10)
        (jsOr (jsNumber pageSize) 10) := rfl

theorem listedArticles_eq (s : Store) (page pageSize order keyword : QueryVal) :
    listedArticles s page pageSize order keyword =
      articleFindMany s (keyword.getD "") (articleOrderBy (order.getD "recent"))
        ((jsOr (jsNumber page) 1 - 1) * jsOr (jsNumber pageSize) 10)
        (jsOr (jsNumber pageSize) 10) := rfl

theorem pairwise_productFindMany (s : Store) (kw : String) (o : ProductOrder)
    (skip take : Nat) :
    List.Pairwise (productOrderRel o) (productFindMany s kw o skip take) :=
  List.Pairwise.sublist
    (List.Sublist.trans (List.take_sublist _ _) (List.drop_sublist _ _))
    (List.sorted_insertionSort (productOrderRel o) (s.products.filter (productMatches kw)))

theorem pairwise_articleFindMany (s : Store) (kw : String) (o : ArticleOrder)
    (skip take : Nat) :
    List.Pairwise (articleOrderRel o) (articleFindMany s kw o skip take) :=
  List.Pairwise.sublist
    (List.Sublist.trans (List.take_sublist _ _) (List.drop_sublist _ _))
    (List.sorted_insertionSort (articleOrderRel o) (s.articles.filter (articleMatches kw)))

theorem productOrderBy_of_ne (o : String) (h : o ≠ "fovorite") :
    productOrderBy o = .createdAtDesc := by
  unfold productOrderBy
  split
  · simp_all
  · rfl

theorem articleOrderBy_of_ne (o : String) (h : o ≠ "oldest") :
    articleOrderBy o = .createdAtDesc := by
  unfold articleOrderBy
  split
  · simp_all
  · rfl

/-- C3 (amended): in the source the product order switch's case label is
spelled `"fovorite"`, so that keyword (and only it) sorts by favoriteCount
descending; `"favorite"` is unrecognized and, like `"recent"`, any other
unrecognized keyword, or an absent keyword, sorts by createdAt descending.
Article listing sorts by createdAt descending for `"recent"`, unrecognized
or absent order (`"oldest"` is recognized and sorts ascending). -/
theorem C3_order_keyword_sorting (s : Store) (page pageSize keyword order : QueryVal) :
    ((order.getD "recent") ≠ "fovorite" →
      List.Pairwise (fun a b : Product => b.createdAt ≤ a.createdAt)
        (listedProducts s page pageSize order keyword)) ∧
    List.Pairwise (fun a b : Product => b.favoriteCount ≤ a.favoriteCount)
      (listedProducts s page pageSize (.str "fovorite") keyword) ∧
    List.Pairwise (fun a b : Product => b.createdAt ≤ a.createdAt)
      (listedProducts s page pageSize (.str "favorite") keyword) ∧
    ((order.getD "recent") ≠ "oldest" →
      List.Pairwise (fun a b : Article => b.createdAt ≤ a.createdAt)
        (listedArticles s page pageSize order keyword)) := by
  refine ⟨fun h => ?_, ?_, ?_, fun h => ?_⟩
  · rw [listedProducts_eq, productOrderBy_of_ne _ h]
    show List.Pairwise (productOrderRel .createdAtDesc) _
    exact pairwise_productFindMany ..
  · rw [listedProducts_eq]
    show List.Pairwise (productOrderRel .favoriteCountDesc) _
    exact pairwise_productFindMany ..
  · rw [listedProducts_eq]
    show List.Pairwise (productOrderRel .createdAtDesc) _
    exact pairwise_productFindMany ..
  · rw [listedArticles_eq, articleOrderBy_of_ne _ h]
    show List.Pairwise (articleOrderRel .createdAtDesc) _
    exact pairwise_articleFindMany ..

def sampleProduct1 : Product := ⟨1, "n1", "d1", 0, [], 10, 1⟩

def sampleProduct2 : Product := ⟨2, "n2", "d2", 0, [], 0, 2⟩

def storeC3 : Store := ⟨[], [sampleProduct1, sampleProduct2], [], []⟩

/-- C3 counterexample: with the order keyword `"favorite"` the listing
comes back sorted by createdAt descending, not by favoriteCount
descending as the claim states. -/
theorem C3_counterexample_favorite_keyword :
    listedProducts storeC3 .absent .absent (.str "favorite") .absent =
      [sampleProduct2, sampleProduct1] ∧
    ¬ List.Pairwise (fun a b : Product => b.favoriteCount ≤ a.favoriteCount)
      (listedProducts storeC3 .absent .absent (.str "favorite") .absent) := by
  decide

def sampleProductComment : ProductComment := ⟨"pc1", "hello", 5, 1⟩

def storeC4 : Store :=
  ⟨[], [sampleProduct1],
    [⟨"c1", "x", 30, "a1"⟩, ⟨"c2", "y", 20, "a1"⟩, ⟨"c3", "z", 10, "a1"⟩],
    [sampleProductComment]⟩

/-- C4: GET /comment behaves as claimed (with cursor c1 and the default
limit the response is the records immediately following c1, newest first,
excluding c1), but GET /productcomment evaluates the undefined identifier
`productComment` when sending, so the whole request answers 500 with the
ReferenceError's message instead of the computed window. -/
theorem C4_cursor_listing_send_bug :
    getComments storeC4 (.str "c1") .absent =
      (⟨200, .payload [⟨"c2", "y", 20⟩, ⟨"c3", "z", 10⟩]⟩, storeC4) ∧
    productCommentFindManyCursor storeC4 (some 5) 0 none =
      .ok [⟨"pc1", "hello", 5⟩] ∧
    getProductComments storeC4 .absent .absent =
      (⟨500, .message "productComment is not defined"⟩, storeC4) :=
  ⟨by decide, rfl, by decide⟩

def storeC7 : Store := ⟨[⟨"a1", "t", "c", 1⟩], [sampleProduct1], [], []⟩

/-- C7: neither comment-creation handler stores the path id as the owner
foreign key. The article route declares `:id` but the handler destructures
`articleId` from `req.params` (undefined), so the create call lacks its
required foreign key and the request fails with 400; the product handler
passes the string path id where the schema's numeric foreign key is
expected, which Prisma's argument validation rejects, also 400. In both
cases no comment is created. -/
theorem C7_comment_owner_key_failures :
    postArticleComment storeC7 "a1" ⟨some "hi", []⟩ "c9" 99 =
      (⟨400, .message "Argument articleId is missing."⟩, storeC7) ∧
    postProductComment storeC7 "1" ⟨some "hi", []⟩ "pc9" 99 =
      (⟨400,
        .message "Argument productId: Invalid value provided. Expected Int, provided String."⟩,
        storeC7) := by
  decide

/-- C9 counterexample: a non-numeric cursor-mode limit is not coerced to
its default; `parseInt` yields NaN, the store rejects `take: NaN`, and the
request fails with a 400 error response. -/
theorem C9_counterexample_nonnumeric_limit :
    getComments storeC4 .absent (.str "abc") =
      (⟨400, .message "Argument take: Invalid value provided."⟩, storeC4) := by
  decide

/-- C9 (amended): a non-numeric page or pageSize is coerced by
`Number(x) || default` to the default (the request behaves exactly as if
the input were absent, and succeeds with status 200); the cursor-mode
limit, however, goes through `parseInt` with no fallback, so a non-numeric
limit reaches the store as NaN and the request fails with status 400. -/
theorem C9_nonnumeric_pagination_inputs (s : Store) (bad : String)
    (order keyword cursor other : QueryVal)
    (hbad : jsNumberStr bad = none) (hbadP : parseIntJs bad = none) :
    getProducts s (.str bad) other order keyword = getProducts s .absent other order keyword ∧
    getProducts s other (.str bad) order keyword = getProducts s other .absent order keyword ∧
    getArticles s (.str bad) other order keyword = getArticles s .absent other order keyword ∧
    getArticles s other (.str bad) order keyword = getArticles s other .absent order keyword ∧
    (getProducts s (.str bad) (.str bad) order keyword).1.status = 200 ∧
    (getArticles s (.str bad) (.str bad) order keyword).1.status = 200 ∧
    getComments s cursor (.str bad) =
      (⟨400, .message "Argument take: Invalid value provided."⟩, s) := by
  refine ⟨?_, ?_, ?_, ?_, ?_, ?_, ?_⟩
  · simp [getProducts, getProductsHandler, jsNumber, hbad]
  · simp [getProducts, getProductsHandler, jsNumber, hbad]
  · simp [getArticles, getArticlesHandler, jsNumber, hbad]
  · simp [getArticles, getArticlesHandler, jsNumber, hbad]
  · simp [getProducts, getProductsHandler, runEndpoint]
  · simp [getArticles, getArticlesHandler, runEndpoint]
  · simp [getComments, getCommentsHandler, hbadP, commentFindManyCursor, runEndpoint,
      catchResponse, isStructOrValidation, isP2025, PrismaError.message]

/-- C9 witness: the amended behavior at the concrete non-numeric input "abc". -/
theorem C9_nonnumeric_witness :
    getProducts storeC4 (.str "abc") .absent .absent .absent =
      getProducts storeC4 .absent .absent .absent .absent ∧
    getComments storeC4 .absent (.str "abc") =
      (⟨400, .message "Argument take: Invalid value provided."⟩, storeC4) :=
  ⟨(C9_nonnumeric_pagination_inputs storeC4 "abc" .absent .absent .absent .absent
      (by decide) (by decide)).1,
   (C9_nonnumeric_pagination_inputs storeC4 "abc" .absent .absent .absent .absent
      (by decide) (by decide)).2.2.2.2.2.2⟩

/-- C10: in each handler that asserts its body against a schema (article
create, article update, comment create, comment update), the assertion is
the first statement; when it fails the wrapper sends 400 with the
StructError's message and the store is exactly the store from before the
request - no record was created or modified. -/
theorem C10_validation_failure_store_unchanged (s : Store) (abody : ArticleBody)
    (cbody : CommentBody) (id pathId newId : String) (now : Nat) :
    (∀ e, assertCreateArticle abody = .error e →
      postArticle s abody newId now = (⟨400, .message e.message⟩, s)) ∧
    (∀ e, assertCreateComment cbody = .error e →
      postArticleComment s pathId cbody newId now = (⟨400, .message e.message⟩, s)) ∧
    (∀ e, assertPatchArticle abody = .error e →
      patchArticle s id abody = (⟨400, .message e.message⟩, s)) ∧
    (∀ e, assertCreateComment cbody = .error e →
      patchComment s id cbody = (⟨400, .message e.message⟩, s)) := by
  refine ⟨fun e h => ?_, fun e h => ?_, fun e h => ?_, fun e h => ?_⟩
  · obtain ⟨m, rfl⟩ : ∃ m, e = PrismaError.structError m := by
      revert h; unfold assertCreateArticle; split
      · intro h; cases h
      · intro h; exact ⟨_, (Except.error.inj h).symm⟩
    simp [postArticle, postArticleHandler, h, runEndpoint, catchResponse,
      isStructOrValidation, PrismaError.message]
  · obtain ⟨m, rfl⟩ : ∃ m, e = PrismaError.structError m := by
      revert h; unfold assertCreateComment; split
      · intro h; cases h
      · intro h; exact ⟨_, (Except.error.inj h).symm⟩
    simp [postArticleComment, postArticleCommentHandler, h, runEndpoint, catchResponse,
      isStructOrValidation, PrismaError.message]
  · obtain ⟨m, rfl⟩ : ∃ m, e = PrismaError.structError m := by
      revert h; unfold assertPatchArticle; split
      · intro h; cases h
      · intro h; exact ⟨_, (Except.error.inj h).symm⟩
    simp [patchArticle, patchArticleHandler, h, runEndpoint, catchResponse,
      isStructOrValidation, PrismaError.message]
  · obtain ⟨m, rfl⟩ : ∃ m, e = PrismaError.structError m := by
      revert h; unfold assertCreateComment; split
      · intro h; cases h
      · intro h; exact ⟨_, (Except.error.inj h).symm⟩
    simp [patchComment, patchCommentHandler, h, runEndpoint, catchResponse,
      isStructOrValidation, PrismaError.message]

/-- C5: page pagination. With page parsing to `p` (nonzero) and pageSize
to `k` (nonzero), both list endpoints return the window that skips
`(p-1)*k` records of the filtered, sorted set and takes `k`; absent inputs
default to page 1 and pageSize 10 (the first 10 records); in particular
page=2, pageSize=5 yields records 6-10 (drop 5, take 5). -/
theorem C5_page_window (s : Store) (page pageSize order keyword : QueryVal) (p k : Nat)
    (hp : jsNumber page = some p) (hp0 : p ≠ 0)
    (hk : jsNumber pageSize = some k) (hk0 : k ≠ 0) :
    listedProducts s page pageSize order keyword =
      ((filteredSortedProducts s (keyword.getD "") (productOrderBy (order.getD "recent"))).drop
        ((p - 1) * k)).take k ∧
    listedArticles s page pageSize order keyword =
      ((filteredSortedArticles s (keyword.getD "") (articleOrderBy (order.getD "recent"))).drop
        ((p - 1) * k)).take k ∧
    listedProducts s .absent .absent order keyword =
      (filteredSortedProducts s (keyword.getD "") (productOrderBy (order.getD "recent"))).take 10 ∧
    listedArticles s .absent .absent order keyword =
      (filteredSortedArticles s (keyword.getD "") (articleOrderBy (order.getD "recent"))).take 10 ∧
    listedProducts s (.str "2") (.str "5") order keyword =
      ((filteredSortedProducts s (keyword.getD "")
        (productOrderBy (order.getD "recent"))).drop 5).take 5 ∧
    listedArticles s (.str "2") (.str "5") order keyword =
      ((filteredSortedArticles s (keyword.getD "")
        (articleOrderBy (order.getD "recent"))).drop 5).take 5 := by
  have h2 : jsNumber (.str "2") = some 2 := by decide
  have h5 : jsNumber (.str "5") = some 5 := by decide
  refine ⟨?_, ?_, ?_, ?_, ?_, ?_⟩
  · rw [listedProducts_eq, hp, hk]; simp [jsOr, hp0, hk0, productFindMany]
  · rw [listedArticles_eq, hp, hk]; simp [jsOr, hp0, hk0, articleFindMany]
  · rw [listedProducts_eq]; simp [jsNumber, jsOr, productFindMany]
  · rw [listedArticles_eq]; simp [jsNumber, jsOr, articleFindMany]
  · rw [listedProducts_eq, h2, h5]; simp [jsOr, productFindMany]
  · rw [listedArticles_eq, h2, h5]; simp [jsOr, articleFindMany]

/-- C5 witness: the page=2, pageSize=5 window at a concrete store. -/
theorem C5_page_window_witness :
    listedProducts storeC3 (.str "2") (.str "5") .absent .absent =
      ((filteredSortedProducts storeC3 "" (productOrderBy "recent")).drop 5).take 5 :=
  (C5_page_window storeC3 (.str "2") (.str "5") .absent .absent 2 5
    (by decide) (by decide) (by decide) (by decide)).1

theorem prefixOfChars_iff : ∀ (n h : List Char), prefixOfChars n h = true ↔ ∃ t, h = n ++ t
  | [], h => by simp [prefixOfChars]
  | a :: as, [] => by simp [prefixOfChars]
  | a :: as, b :: bs => by
    rw [show prefixOfChars (a :: as) (b :: bs) = (a == b && prefixOfChars as bs) from rfl,
      Bool.and_eq_true, beq_iff_eq, prefixOfChars_iff as bs]
    constructor
    · rintro ⟨rfl, t, rfl⟩; exact ⟨t, rfl⟩
    · rintro ⟨t, ht⟩
      injection ht with h1 h2
      exact ⟨h1.symm, t, h2⟩

theorem containsChars_iff : ∀ (h n : List Char),
    containsChars h n = true ↔ ∃ pre post, h = pre ++ n ++ post
  | [], n => by
    rw [show containsChars [] n = n.isEmpty from rfl, List.isEmpty_iff]
    constructor
    · rintro rfl; exact ⟨[], [], rfl⟩
    · rintro ⟨pre, post, hp⟩
      rcases List.append_eq_nil.mp hp.symm with ⟨h1, -⟩
      exact (List.append_eq_nil.mp h1).2
  | x :: t, n => by
    rw [show containsChars (x :: t) n = (prefixOfChars n (x :: t) || containsChars t n) from rfl,
      Bool.or_eq_true, prefixOfChars_iff, containsChars_iff t n]
    constructor
    · rintro (⟨post, hp⟩ | ⟨pre, post, hp⟩)
      · exact ⟨[], post, by simpa using hp⟩
      · exact ⟨x :: pre, post, by simp [hp]⟩
    · rintro ⟨pre, post, hp⟩
      cases pre with
      | nil => exact .inl ⟨post, by simpa using hp⟩
      | cons y ys =>
        right
        rw [List.cons_append, List.cons_append] at hp
        injection hp with h1 h2
        exact ⟨ys, post, by simpa using h2⟩

theorem strContains_iff (hay needle : String) :
    strContains hay needle = true ↔ SubstringOf needle hay :=
  containsChars_iff hay.toList needle.toList

theorem strContains_nil (hay : String) : strContains hay "" = true := by
  have : ∀ l : List Char, containsChars l [] = true := by
    intro l; cases l <;> simp [containsChars, prefixOfChars]
  exact this hay.toList

/-- C6: a record matches the keyword filter exactly when the keyword is a
(case-sensitive) contiguous substring of at least one of the designated
text fields - name or description for products, content or title for
articles - the per-field tests OR-combined; the empty keyword matches
every record; and every record a list endpoint returns matches its
keyword filter. -/
theorem C6_keyword_filter (kw : String) (p : Product) (a : Article) :
    (productMatches kw p = true ↔ SubstringOf kw p.name ∨ SubstringOf kw p.description) ∧
    (articleMatches kw a = true ↔ SubstringOf kw a.content ∨ SubstringOf kw a.title) ∧
    productMatches "" p = true ∧
    articleMatches "" a = true ∧
    (∀ (s : Store) (page pageSize order : QueryVal) (q : Product),
      q ∈ listedProducts s page pageSize order (.str kw) → productMatches kw q = true) ∧
    (∀ (s : Store) (page pageSize order : QueryVal) (b : Article),
      b ∈ listedArticles s page pageSize order (.str kw) → articleMatches kw b = true) := by
  refine ⟨?_, ?_, ?_, ?_, ?_, ?_⟩
  · simp [productMatches, Bool.or_eq_true, strContains_iff]
  · by_cases hkw : kw = ""
    · subst hkw
      simp only [articleMatches, if_pos rfl]
      constructor
      · intro _; exact .inl ⟨[], a.content.toList, by simp⟩
      · intro _; rfl
    · simp [articleMatches, hkw, Bool.or_eq_true, strContains_iff]
  · simp [productMatches, strContains_nil]
  · simp [articleMatches]
  · intro s page pageSize order q hq
    rw [listedProducts_eq] at hq
    have h1 : q ∈ filteredSortedProducts s ((QueryVal.str kw).getD "")
        (productOrderBy (order.getD "recent")) :=
      List.mem_of_mem_drop (List.mem_of_mem_take hq)
    have h2 := (List.mem_insertionSort _).mp h1
    exact List.of_mem_filter h2
  · intro s page pageSize order b hb
    rw [listedArticles_eq] at hb
    have h1 := List.mem_of_mem_drop (List.mem_of_mem_take hb)
    have h2 := (List.mem_insertionSort _).mp h1
    exact List.of_mem_filter h2

/-! ## Stability of ids and creation timestamps (C8) -/

theorem find_self_stable {α : Type} {l : List α} {p : α → Bool} {a a' : α}
    (h1 : l.find? p = some a) (h2 : l.find? p = some a') : a' = a := by
  rw [h1] at h2
  exact (Option.some.inj h2).symm

theorem find_append_stable {α : Type} {l m : List α} {p : α → Bool} {a a' : α}
    (h1 : l.find? p = some a) (h2 : (l ++ m).find? p = some a') : a' = a := by
  rw [List.find?_append, h1] at h2
  simpa using h2.symm

theorem find_map_found {α κ : Type} [BEq κ] (key : α → κ) (f : α → α)
    (hkey : ∀ x, key (f x) = key x)
    {l : List α} {i : κ} {a a' : α}
    (h1 : l.find? (fun x => key x == i) = some a)
    (h2 : (l.map f).find? (fun x => key x == i) = some a') :
    a' = f a := by
  rw [List.find?_map] at h2
  have hcomp : ((fun x => key x == i) ∘ f) = (fun x => key x == i) := by
    funext x
    simp [Function.comp, hkey x]
  rw [hcomp, h1] at h2
  simpa using h2.symm

theorem find_filterout_stable {α κ : Type} [BEq κ] [LawfulBEq κ] (key : α → κ)
    {l : List α} {i j : κ} {a a' : α}
    (h1 : l.find? (fun x => key x == i) = some a)
    (h2 : (l.filter (fun x => !(key x == j))).find? (fun x => key x == i) = some a') :
    a' = a := by
  by_cases hij : i = j
  · subst hij
    exfalso
    have hnone : (l.filter (fun x => !(key x == i))).find? (fun x => key x == i) = none := by
      rw [List.find?_eq_none]
      intro x hx
      have := (List.mem_filter.mp hx).2
      simpa using this
    rw [hnone] at h2
    cases h2
  · rcases List.find?_eq_some.mp h1 with ⟨pa, as, bs, hl, has⟩
    have hai : key a = i := by simpa using pa
    have hqa : (!(key a == j)) = true := by simp [hai, hij]
    subst hl
    rw [List.filter_append, List.filter_cons, if_pos hqa, List.find?_append] at h2
    have hnone : (as.filter (fun x => !(key x == j))).find? (fun x => key x == i) = none := by
      rw [List.find?_eq_none]
      intro x hx
      have := has x (List.mem_filter.mp hx).1
      simpa using this
    rw [hnone] at h2
    simp only [Option.none_or, List.find?_cons, pa, if_pos] at h2
    · simpa using h2.symm

/-- Between two stores, every record (looked up by id, per table) present
in both keeps its id and its createdAt timestamp. -/
def IdStampStable (s s' : Store) : Prop :=
  (∀ i a a', findArticleById s i = some a → findArticleById s' i = some a' →
    a'.id = a.id ∧ a'.createdAt = a.createdAt) ∧
  (∀ i p p', findProductById s i = some p → findProductById s' i = some p' →
    p'.id = p.id ∧ p'.createdAt = p.createdAt) ∧
  (∀ i c c', findCommentById s i = some c → findCommentById s' i = some c' →
    c'.id = c.id ∧ c'.createdAt = c.createdAt) ∧
  (∀ i c c', findProductCommentById s i = some c → findProductCommentById s' i = some c' →
    c'.id = c.id ∧ c'.createdAt = c.createdAt)

theorem idStampStable_refl (s : Store) : IdStampStable s s := by
  refine ⟨?_, ?_, ?_, ?_⟩ <;>
    exact fun i x x' h1 h2 => by rw [find_self_stable h1 h2]; exact ⟨rfl, rfl⟩

theorem idStampStable_articles_append (s : Store) (x : Article) :
    IdStampStable s { s with articles := s.articles ++ [x] } := by
  refine ⟨?_, ?_, ?_, ?_⟩
  · exact fun i a a' h1 h2 => by
      rw [find_append_stable h1 h2]; exact ⟨rfl, rfl⟩
  all_goals exact fun i y y' h1 h2 => by rw [find_self_stable h1 h2]; exact ⟨rfl, rfl⟩

theorem idStampStable_products_append (s : Store) (x : Product) :
    IdStampStable s { s with products := s.products ++ [x] } := by
  refine ⟨?_, ?_, ?_, ?_⟩
  · exact fun i y y' h1 h2 => by rw [find_self_stable h1 h2]; exact ⟨rfl, rfl⟩
  · exact fun i p p' h1 h2 => by
      rw [find_append_stable h1 h2]; exact ⟨rfl, rfl⟩
  all_goals exact fun i y y' h1 h2 => by rw [find_self_stable h1 h2]; exact ⟨rfl, rfl⟩

theorem idStampStable_comments_append (s : Store) (x : Comment) :
    IdStampStable s { s with comments := s.comments ++ [x] } := by
  refine ⟨?_, ?_, ?_, ?_⟩
  · exact fun i y y' h1 h2 => by rw [find_self_stable h1 h2]; exact ⟨rfl, rfl⟩
  · exact fun i y y' h1 h2 => by rw [find_self_stable h1 h2]; exact ⟨rfl, rfl⟩
  · exact fun i c c' h1 h2 => by
      rw [find_append_stable h1 h2]; exact ⟨rfl, rfl⟩
  · exact fun i y y' h1 h2 => by rw [find_self_stable h1 h2]; exact ⟨rfl, rfl⟩

theorem idStampStable_productComments_append (s : Store) (x : ProductComment) :
    IdStampStable s { s with productComments := s.productComments ++ [x] } := by
  refine ⟨?_, ?_, ?_, ?_⟩
  · exact fun i y y' h1 h2 => by rw [find_self_stable h1 h2]; exact ⟨rfl, rfl⟩
  · exact fun i y y' h1 h2 => by rw [find_self_stable h1 h2]; exact ⟨rfl, rfl⟩
  · exact fun i y y' h1 h2 => by rw [find_self_stable h1 h2]; exact ⟨rfl, rfl⟩
  · exact fun i c c' h1 h2 => by
      rw [find_append_stable h1 h2]; exact ⟨rfl, rfl⟩

theorem idStampStable_articles_map (s : Store) (f : Article → Article)
    (hkey : ∀ x, (f x).id = x.id)
    (hstamp : ∀ i a, findArticleById s i = some a → (f a).createdAt = a.createdAt) :
    IdStampStable s { s with articles := s.articles.map f } := by
  refine ⟨?_, ?_, ?_, ?_⟩
  · refine fun i a a' h1 h2 => ?_
    have ha := find_map_found Article.id f hkey h1 h2
    rw [ha]
    exact ⟨hkey a, hstamp i a h1⟩
  all_goals exact fun i y y' h1 h2 => by rw [find_self_stable h1 h2]; exact ⟨rfl, rfl⟩

theorem idStampStable_comments_map (s : Store) (f : Comment → Comment)
    (hkey : ∀ x, (f x).id = x.id)
    (hstamp : ∀ i c, findCommentById s i = some c → (f c).createdAt = c.createdAt) :
    IdStampStable s { s with comments := s.comments.map f } := by
  refine ⟨?_, ?_, ?_, ?_⟩
  · exact fun i y y' h1 h2 => by rw [find_self_stable h1 h2]; exact ⟨rfl, rfl⟩
  · exact fun i y y' h1 h2 => by rw [find_self_stable h1 h2]; exact ⟨rfl, rfl⟩
  · refine fun i c c' h1 h2 => ?_
    have hc := find_map_found Comment.id f hkey h1 h2
    rw [hc]
    exact ⟨hkey c, hstamp i c h1⟩
  · exact fun i y y' h1 h2 => by rw [find_self_stable h1 h2]; exact ⟨rfl, rfl⟩

theorem idStampStable_articles_filter (s : Store) (j : String) :
    IdStampStable s { s with articles := s.articles.filter (fun x => !(x.id == j)) } := by
  refine ⟨?_, ?_, ?_, ?_⟩
  · exact fun i a a' h1 h2 => by
      rw [find_filterout_stable Article.id h1 h2]; exact ⟨rfl, rfl⟩
  all_goals exact fun i y y' h1 h2 => by rw [find_self_stable h1 h2]; exact ⟨rfl, rfl⟩

theorem idStampStable_comments_filter (s : Store) (j : String) :
    IdStampStable s { s with comments := s.comments.filter (fun x => !(x.id == j)) } := by
  refine ⟨?_, ?_, ?_, ?_⟩
  · exact fun i y y' h1 h2 => by rw [find_self_stable h1 h2]; exact ⟨rfl, rfl⟩
  · exact fun i y y' h1 h2 => by rw [find_self_stable h1 h2]; exact ⟨rfl, rfl⟩
  · exact fun i c c' h1 h2 => by
      rw [find_filterout_stable Comment.id h1 h2]; exact ⟨rfl, rfl⟩
  · exact fun i y y' h1 h2 => by rw [find_self_stable h1 h2]; exact ⟨rfl, rfl⟩

theorem articleCreate_store {s : Store} {d : ArticleBody} {ni : String} {no : Nat}
    {a : Article} {s2 : Store} (h : articleCreate s d ni no = .ok (a, s2)) :
    s2 = { s with articles := s.articles ++ [a] } := by
  unfold articleCreate at h
  split at h
  · cases h
  · split at h
    · split at h
      · cases h
      · rw [Except.ok.injEq, Prod.mk.injEq] at h
        rcases h with ⟨rfl, rfl⟩
        rfl
    · cases h

theorem articleUpdate_store {s : Store} {i : String} {d : ArticleBody}
    {a2 : Article} {s2 : Store} (h : articleUpdate s i d = .ok (a2, s2)) :
    ∃ f, s2 = { s with articles := s.articles.map f } ∧
      (∀ x, (f x).id = x.id) ∧
      (∀ j b, findArticleById s j = some b → (f b).createdAt = b.createdAt) := by
  unfold articleUpdate at h
  split at h
  · cases h
  · cases hF : findArticleById s i with
    | none => rw [hF] at h; cases h
    | some a =>
      rw [hF] at h
      rw [Except.ok.injEq, Prod.mk.injEq] at h
      rcases h with ⟨rfl, rfl⟩
      have hai : a.id = i := by
        have := List.find?_some hF
        simpa using this
      refine ⟨_, rfl, fun x => ?_, fun j b hb => ?_⟩
      · by_cases hx : (x.id == i) = true
        · have hxi : x.id = i := by simpa using hx
          simp [hx, hai, hxi]
        · simp [hx]
      · by_cases hb' : (b.id == i) = true
        · have hbi : b.id = i := by simpa using hb'
          have hji : j = i := by
            have := List.find?_some hb
            have hbj : b.id = j := by simpa using this
            rw [← hbj, hbi]
          subst hji
          have hba : b = a := by
            rw [hF] at hb
            exact (Option.some.inj hb).symm
          subst hba
          simp [hb']
        · simp [hb']

theorem articleDelete_store {s : Store} {i : String} {a : Article} {s2 : Store}
    (h : articleDelete s i = .ok (a, s2)) :
    s2 = { s with articles := s.articles.filter (fun x => !(x.id == i)) } := by
  unfold articleDelete at h
  cases hF : findArticleById s i <;> rw [hF] at h
  · cases h
  · rw [Except.ok.injEq, Prod.mk.injEq] at h
    rcases h with ⟨rfl, rfl⟩
    rfl

theorem commentCreate_store {s : Store} {d : CommentBody} {aid : JsVal} {ni : String}
    {no : Nat} {c : Comment} {s2 : Store} (h : commentCreate s d aid ni no = .ok (c, s2)) :
    s2 = { s with comments := s.comments ++ [c] } := by
  unfold commentCreate at h
  split at h
  · cases h
  · split at h
    · cases h
    · cases h
    · cases h
    · split at h
      · split at h
        · cases h
        · rw [Except.ok.injEq, Prod.mk.injEq] at h
          rcases h with ⟨rfl, rfl⟩
          rfl
      · cases h

theorem commentUpdate_store {s : Store} {i : String} {d : CommentBody}
    {c2 : Comment} {s2 : Store} (h : commentUpdate s i d = .ok (c2, s2)) :
    ∃ f, s2 = { s with comments := s.comments.map f } ∧
      (∀ x, (f x).id = x.id) ∧
      (∀ j b, findCommentById s j = some b → (f b).createdAt = b.createdAt) := by
  unfold commentUpdate at h
  split at h
  · cases h
  · cases hF : findCommentById s i with
    | none => rw [hF] at h; cases h
    | some c =>
      rw [hF] at h
      rw [Except.ok.injEq, Prod.mk.injEq] at h
      rcases h with ⟨rfl, rfl⟩
      have hci : c.id = i := by
        have := List.find?_some hF
        simpa using this
      refine ⟨_, rfl, fun x => ?_, fun j b hb => ?_⟩
      · by_cases hx : (x.id == i) = true
        · have hxi : x.id = i := by simpa using hx
          simp [hx, hci, hxi]
        · simp [hx]
      · by_cases hb' : (b.id == i) = true
        · have hbi : b.id = i := by simpa using hb'
          have hji : j = i := by
            have := List.find?_some hb
            have hbj : b.id = j := by simpa using this
            rw [← hbj, hbi]
          subst hji
          have hbc : b = c := by
            rw [hF] at hb
            exact (Option.some.inj hb).symm
          subst hbc
          simp [hb']
        · simp [hb']

theorem commentDelete_store {s : Store} {i : String} {c : Comment} {s2 : Store}
    (h : commentDelete s i = .ok (c, s2)) :
    s2 = { s with comments := s.comments.filter (fun x => !(x.id == i)) } := by
  unfold commentDelete at h
  cases hF : findCommentById s i <;> rw [hF] at h
  · cases h
  · rw [Except.ok.injEq, Prod.mk.injEq] at h
    rcases h with ⟨rfl, rfl⟩
    rfl

theorem productCreate_store {s : Store} {d : ProductBody} {ni no : Nat}
    {p : Product} {s2 : Store} (h : productCreate s d ni no = .ok (p, s2)) :
    s2 = { s with products := s.products ++ [p] } := by
  unfold productCreate at h
  split at h
  · cases h
  · split at h
    · split at h
      · cases h
      · rw [Except.ok.injEq, Prod.mk.injEq] at h
        rcases h with ⟨rfl, rfl⟩
        rfl
    · cases h

theorem productCommentCreate_store {s : Store} {d : CommentBody} {pid : JsVal}
    {ni : String} {no : Nat} {c : ProductComment} {s2 : Store}
    (h : productCommentCreate s d pid ni no = .ok (c, s2)) :
    s2 = { s with productComments := s.productComments ++ [c] } := by
  unfold productCommentCreate at h
  split at h
  · cases h
  · split at h
    · cases h
    · cases h
    · cases h
    · split at h
      · split at h
        · cases h
        · rw [Except.ok.injEq, Prod.mk.injEq] at h
          rcases h with ⟨rfl, rfl⟩
          rfl
      · cases h

theorem postArticle_stable (s : Store) (b : ArticleBody) (ni : String) (no : Nat) :
    IdStampStable s (postArticle s b ni no).2 := by
  unfold postArticle postArticleHandler
  split
  · exact idStampStable_refl s
  · split
    · exact idStampStable_refl s
    · next a s2 heq =>
      rw [articleCreate_store heq]
      exact idStampStable_articles_append s a

theorem getArticleById_stable (s : Store) (i : String) :
    IdStampStable s (getArticleById s i).2 := by
  unfold getArticleById getArticleByIdHandler
  split <;> exact idStampStable_refl s

theorem patchArticle_stable (s : Store) (i : String) (b : ArticleBody) :
    IdStampStable s (patchArticle s i b).2 := by
  unfold patchArticle patchArticleHandler
  split
  · exact idStampStable_refl s
  · split
    · exact idStampStable_refl s
    · next a2 s2 heq =>
      obtain ⟨f, hs2, hkey, hstamp⟩ := articleUpdate_store heq
      rw [hs2]
      exact idStampStable_articles_map s f hkey hstamp

theorem deleteArticle_stable (s : Store) (i : String) :
    IdStampStable s (deleteArticle s i).2 := by
  unfold deleteArticle deleteArticleHandler
  split
  · exact idStampStable_refl s
  · next a s2 heq =>
    rw [articleDelete_store heq]
    exact idStampStable_articles_filter s i

theorem getProducts_stable (s : Store) (p ps o k : QueryVal) :
    IdStampStable s (getProducts s p ps o k).2 :=
  idStampStable_refl s

theorem postArticleComment_stable (s : Store) (pid : String) (b : CommentBody)
    (ni : String) (no : Nat) : IdStampStable s (postArticleComment s pid b ni no).2 := by
  unfold postArticleComment postArticleCommentHandler
  split
  · exact idStampStable_refl s
  · dsimp only
    split
    · exact idStampStable_refl s
    · next c s2 heq =>
      rw [commentCreate_store heq]
      exact idStampStable_comments_append s c

theorem postProductComment_stable (s : Store) (pid : String) (b : CommentBody)
    (ni : String) (no : Nat) : IdStampStable s (postProductComment s pid b ni no).2 := by
  unfold postProductComment postProductCommentHandler
  split
  · exact idStampStable_refl s
  · next c s2 heq =>
    rw [productCommentCreate_store heq]
    exact idStampStable_productComments_append s c

theorem patchComment_stable (s : Store) (i : String) (b : CommentBody) :
    IdStampStable s (patchComment s i b).2 := by
  unfold patchComment patchCommentHandler
  split
  · exact idStampStable_refl s
  · split
    · exact idStampStable_refl s
    · next c2 s2 heq =>
      obtain ⟨f, hs2, hkey, hstamp⟩ := commentUpdate_store heq
      rw [hs2]
      exact idStampStable_comments_map s f hkey hstamp

theorem deleteComment_stable (s : Store) (i : String) :
    IdStampStable s (deleteComment s i).2 := by
  unfold deleteComment deleteCommentHandler
  split
  · exact idStampStable_refl s
  · next c s2 heq =>
    rw [commentDelete_store heq]
    exact idStampStable_comments_filter s i

theorem getComments_stable (s : Store) (c l : QueryVal) :
    IdStampStable s (getComments s c l).2 := by
  unfold getComments getCommentsHandler
  dsimp only
  repeat' split
  all_goals exact idStampStable_refl s

theorem getProductComments_stable (s : Store) (c l : QueryVal) :
    IdStampStable s (getProductComments s c l).2 := by
  unfold getProductComments getProductCommentsHandler
  dsimp only
  repeat' split
  all_goals exact idStampStable_refl s

theorem getArticles_stable (s : Store) (p ps o k : QueryVal) :
    IdStampStable s (getArticles s p ps o k).2 :=
  idStampStable_refl s

theorem getProductById_stable (s : Store) (i : String) :
    IdStampStable s (getProductById s i).2 := by
  unfold getProductById getProductByIdHandler
  split <;> exact idStampStable_refl s

theorem postProduct_stable (s : Store) (b : ProductBody) (ni no : Nat) :
    IdStampStable s (postProduct s b ni no).2 := by
  unfold postProduct postProductHandler
  split
  · exact idStampStable_refl s
  · next p s2 heq =>
    rw [productCreate_store heq]
    exact idStampStable_products_append s p

theorem patchProduct_stable (s : Store) (i : String) (b : ProductBody) :
    IdStampStable s (patchProduct s i b).2 :=
  idStampStable_refl s

theorem deleteProduct_stable (s : Store) (i : String) :
    IdStampStable s (deleteProduct s i).2 :=
  idStampStable_refl s

/-- C8: no operation exposed by the system reassigns a record's id or
modifies its createdAt timestamp: after any single request, every record
(of any of the four tables) that is still found under its id has the same
id and the same createdAt as before; this holds in particular for the
partial-update handlers, whose schema-checked bodies cannot carry id or
createdAt (and the product patch handler fails at its bare-id fetch before
persisting anything). Applied request by request, this gives the claim's
sequence form for records that remain present across the sequence. -/
theorem C8_id_createdAt_immutable (op : Op) (s : Store) : IdStampStable s (step s op) := by
  cases op with
  | opPostArticle b ni no => exact postArticle_stable s b ni no
  | opGetArticleById i => exact getArticleById_stable s i
  | opPatchArticle i b => exact patchArticle_stable s i b
  | opDeleteArticle i => exact deleteArticle_stable s i
  | opGetProducts p ps o k => exact getProducts_stable s p ps o k
  | opPostArticleComment pid b ni no => exact postArticleComment_stable s pid b ni no
  | opPostProductComment pid b ni no => exact postProductComment_stable s pid b ni no
  | opPatchComment i b => exact patchComment_stable s i b
  | opDeleteComment i => exact deleteComment_stable s i
  | opGetComments c l => exact getComments_stable s c l
  | opGetProductComments c l => exact getProductComments_stable s c l
  | opGetArticles p ps o k => exact getArticles_stable s p ps o k
  | opGetProductById i => exact getProductById_stable s i
  | opPostProduct b ni no => exact postProduct_stable s b ni no
  | opPatchProduct i b => exact patchProduct_stable s i b
  | opDeleteProduct i => exact deleteProduct_stable s i
